import Mathlib

/-!
Verification of the packet fragmentation and reassembly engine
(`002_packet_fragmentation_and_reassembly.cpp`).

The embedding below translates the receiver-side assembly window
(`PacketBuffer` with `Advance`, `ProcessFragment`, `ReceivePackets`) and the
sender-side `SplitPacketIntoFragments` into executable Lean definitions.
Machine integers are modelled as `Nat`/`Int` with explicit `% 2^w` where the
C code relies on fixed-width wraparound (`uint16_t` sequence numbers, the
16/8/8-bit bitfields of `PacketBufferEntry`).  Byte buffers are `List Nat`;
a `new`-allocated fragment buffer is an `Option (List Nat)` (`none` = null
pointer).  C `assert`s in `SplitPacketIntoFragments` are modelled as
precondition failures (`Except.error`); asserts inside the packet buffer
member functions compile to nothing in release builds and are modelled as
no-ops, with their asserted properties stated as theorems where a claim
refers to them.
-/

set_option maxRecDepth 100000

namespace Protocol2

/-- `const int PacketBufferSize = 256`. -/
def PacketBufferSize : Nat := 256

/-- `const int MaxFragmentSize = 1024`. -/
def MaxFragmentSize : Nat := 1024

/-- `const int MaxFragmentsPerPacket = 256`. -/
def MaxFragmentsPerPacket : Nat := 256

/-- `const int MaxBufferedFragments = 256`. -/
def MaxBufferedFragments : Nat := 256

/-- `const int MaxPacketSize = MaxFragmentSize * MaxFragmentsPerPacket`. -/
def MaxPacketSize : Nat := MaxFragmentSize * MaxFragmentsPerPacket

/-- Interpret a value reduced mod 2^16 as a signed 16-bit integer. -/
def toSigned16 (v : Nat) : Int :=
  if v % 65536 < 32768 then (v % 65536 : Int) else (v % 65536 : Int) - 65536

/-- Modelled from the spec: `protocol2.h` (the Sequence Arithmetic component)
is not under `src/`.  Spec §4.1: "`difference(a,b)`: signed 16-bit distance",
i.e. the signed 16-bit value of the 16-bit subtraction `a - b`. -/
def sequence_difference (a b : Nat) : Int :=
  toSigned16 ((a % 65536 + 65536 - b % 65536) % 65536)

/-- Modelled from the spec: `protocol2.h` is not under `src/`.  Spec §4.1:
"`greater_than(a,b)`: true iff the signed 16-bit value of `(a-b)` is
positive". -/
def sequence_greater_than (a b : Nat) : Bool :=
  0 < sequence_difference a b

/-- Modelled from the spec: `protocol2.h` is not under `src/`.  Spec §4.1:
"`less_than(a,b)`: true iff the signed 16-bit value of `(a-b)` is
negative". -/
def sequence_less_than (a b : Nat) : Bool :=
  sequence_difference a b < 0

/-- Pointwise update of a function, modelling an array store `f[i] = v`. -/
def upd {α : Type} (f : Nat → α) (i : Nat) (v : α) : Nat → α :=
  fun k => if k = i then v else f k

/-- `struct PacketBufferEntry`.  The bitfields `sequence : 16`,
`numFragments : 8`, `receivedFragments : 8` hold values reduced mod 2^16 /
2^8; `fragmentSize` and `fragmentData` are the per-fragment arrays of size
`MaxFragmentsPerPacket` (`none` models a null `fragmentData` pointer). -/
structure PacketBufferEntry where
  sequence : Nat
  numFragments : Nat
  receivedFragments : Nat
  fragmentSize : Nat → Nat
  fragmentData : Nat → Option (List Nat)

/-- A `PacketBufferEntry` after `memset(&entry, 0, sizeof(PacketBufferEntry))`. -/
def emptyEntry : PacketBufferEntry :=
  { sequence := 0, numFragments := 0, receivedFragments := 0
    fragmentSize := fun _ => 0, fragmentData := fun _ => none }

/-- `struct PacketBuffer`: `currentSequence` (`uint16_t`), the member
`numFragments` counter (`int`, may in principle go negative, hence `Int`),
the occupancy flags `valid` and the entry array. -/
structure PacketBuffer where
  currentSequence : Nat
  numFragments : Int
  valid : Nat → Bool
  entries : Nat → PacketBufferEntry

/-- The constructor `PacketBuffer() { memset(this, 0, sizeof(PacketBuffer)); }`. -/
def initPacketBuffer : PacketBuffer :=
  { currentSequence := 0, numFragments := 0
    valid := fun _ => false, entries := fun _ => emptyEntry }

/-- Number of non-null `fragmentData[j]` pointers with `j < numFragments` of an
entry: how many times the freeing loop in `Advance` executes
`delete [] ...; numFragments--`. -/
def countStored (e : PacketBufferEntry) : Nat :=
  (List.range e.numFragments).countP (fun j => (e.fragmentData j).isSome)

/-- One iteration of the eviction loop in `PacketBuffer::Advance`
(source lines 141-164).  Note the `memset` and `valid[i] = false` stand
OUTSIDE the `sequence_less_than` test in the source, so every valid slot is
cleared; only slots older than `oldest` get their buffers freed and the
member count decremented. -/
def advanceStep (oldest : Nat) (s : PacketBuffer) (i : Nat) : PacketBuffer :=
  if s.valid i = true then
    { currentSequence := s.currentSequence
      numFragments :=
        if sequence_less_than (s.entries i).sequence oldest = true then
          s.numFragments - (countStored (s.entries i) : Int)
        else s.numFragments
      valid := upd s.valid i false
      entries := upd s.entries i emptyEntry }
  else s

/-- `PacketBuffer::Advance(uint16_t sequence)` (source lines 132-167). -/
def advance (s : PacketBuffer) (sequence : Nat) : PacketBuffer :=
  if sequence_greater_than sequence s.currentSequence = true then
    { (List.range PacketBufferSize).foldl
        (advanceStep ((sequence % 65536 + 65536 - (PacketBufferSize - 1)) % 65536)) s with
      currentSequence := sequence % 65536 }
  else s

/-- The slot-binding step of `ProcessFragment` (source lines 252-259, after
the call to `Advance`): bind the slot at `qn % PacketBufferSize` to sequence
`qn` and the declared fragment count (stored through the 16-bit and 8-bit
bitfields), and raise its occupancy flag. -/
def pfBind (sa : PacketBuffer) (qn : Nat) (nf : Int) : PacketBuffer :=
  { sa with
    entries := upd sa.entries (qn % PacketBufferSize)
      ({ sa.entries (qn % PacketBufferSize) with
         sequence := qn % 65536, numFragments := nf.toNat % 256 })
    valid := upd sa.valid (qn % PacketBufferSize) true }

/-- The fragment store of `ProcessFragment` (source lines 286-301): copy `sz`
bytes into a fresh buffer owned by the slot, record the size, bump the slot's
received count (8-bit bitfield). -/
def pfWrite (s1 : PacketBuffer) (d : List Nat) (sz : Int) (index : Nat)
    (fid : Int) : PacketBuffer :=
  { s1 with
    entries :=
      upd s1.entries index
        ({ s1.entries index with
           fragmentSize := upd (s1.entries index).fragmentSize fid.toNat sz.toNat
           fragmentData :=
             upd (s1.entries index).fragmentData fid.toNat (some (d.take sz.toNat))
           receivedFragments := ((s1.entries index).receivedFragments + 1) % 256 }) }

/-- The tail of `ProcessFragment` (source lines 266-302): checks 9 and 10
against the (possibly freshly bound) entry, then the store of the fragment.
The final `numFragments++` of the source increments the shadowing parameter,
not the member, so no count is touched here. -/
def pfStore (s1 : PacketBuffer) (d : List Nat) (sz : Int) (index : Nat)
    (fid nf : Int) : Bool × PacketBuffer :=
  if nf ≠ ((s1.entries index).numFragments : Int) then (false, s1)       -- error 9
  else if (s1.entries index).fragmentSize fid.toNat ≠ 0 then (false, s1) -- error 10
  else (true, pfWrite s1 d sz index fid)

/-- `PacketBuffer::ProcessFragment(fragmentData, fragmentSize, packetSequence,
fragmentId, numFragments)` (source lines 180-303).  Returns the C `bool`
result together with the post-state.  The parameters keep the C types:
`fragmentSize`, `fragmentId`, `numFragments` are `int` (`Int`), the
`packetSequence` parameter is `uint16_t` (normalized mod 2^16 where used, as
the parameter type guarantees in C).  NOTE, faithful to the source: the
parameter `numFragments` shadows the member `numFragments`, so the first
check tests the parameter against `MaxBufferedFragments` and the final
`numFragments++` increments the parameter, leaving the member count
untouched. -/
def processFragment (s : PacketBuffer) (d : List Nat) (fragmentSize : Int)
    (packetSequence : Nat) (fragmentId numFragments : Int) : Bool × PacketBuffer :=
  if numFragments ≥ (MaxBufferedFragments : Int) then (false, s)          -- error 1
  else if fragmentSize ≤ 0 then (false, s)                               -- error 2
  else if fragmentSize > (MaxFragmentSize : Int) then (false, s)         -- error 3
  else if numFragments ≤ 0 ∨ numFragments > (MaxFragmentsPerPacket : Int) then (false, s) -- error 4
  else if fragmentId < 0 ∨ fragmentId ≥ numFragments then (false, s)     -- error 5
  else if fragmentId ≠ numFragments - 1 ∧ fragmentSize ≠ (MaxFragmentSize : Int) then (false, s) -- error 6
  else if sequence_difference (packetSequence % 65536) s.currentSequence > 10 * 1024 then (false, s) -- error 7
  else if s.valid (packetSequence % 65536 % PacketBufferSize) = true ∧
      (s.entries (packetSequence % 65536 % PacketBufferSize)).sequence ≠ packetSequence % 65536 then
    (false, s)                                                           -- error 8
  else
    pfStore
      (if s.valid (packetSequence % 65536 % PacketBufferSize) = true then s
       else pfBind (advance s (packetSequence % 65536)) (packetSequence % 65536) numFragments)
      d fragmentSize (packetSequence % 65536 % PacketBufferSize) fragmentId numFragments

/-- `memcpy(buf + off, src, src.length)`: overwrite `src.length` bytes of
`buf` starting at offset `off`. -/
def writeBytes (buf : List Nat) (off : Nat) (src : List Nat) : List Nat :=
  buf.take off ++ src ++ buf.drop (off + src.length)

/-- The packet-reconstruction step of `ReceivePackets` for the entry at scan
position `i` (source lines 369-394): total size is the sum of the recorded
fragment sizes, and the reconstruction loop copies `numFragments` times from
`fragmentData[i]` / `fragmentSize[i]`.  NOTE, faithful to the source (lines
392-393): the copy uses the OUTER scan index `i`, not the fragment loop
index `j`.  A fresh `new uint8_t[packetSize]` allocation is modelled as
zero-filled. -/
def assemblePacket (e : PacketBufferEntry) (i : Nat) : Nat × List Nat :=
  (((List.range e.numFragments).map e.fragmentSize).sum,
   ((List.range e.numFragments).foldl
      (fun (bo : List Nat × Nat) _ =>
        (writeBytes bo.1 bo.2 (((e.fragmentData i).getD []).take (e.fragmentSize i)),
         bo.2 + e.fragmentSize i))
      (List.replicate (((List.range e.numFragments).map e.fragmentSize).sum) 0, 0)).1)

/-- One iteration (scan position `i`) of the drain loop of
`PacketBuffer::ReceivePackets` (source lines 351-410): if the slot addressed
by the scanned sequence is occupied, bound to that sequence and complete,
emit the reconstructed packet, free the fragments (decrementing the member
count once per declared fragment), zero the entry and drop its flag. -/
def receiveStep (oldest : Nat) (st : PacketBuffer × List (Nat × List Nat)) (i : Nat) :
    PacketBuffer × List (Nat × List Nat) :=
  if st.1.valid ((oldest + i) % 65536 % PacketBufferSize) = true ∧
      (st.1.entries ((oldest + i) % 65536 % PacketBufferSize)).sequence = (oldest + i) % 65536 then
    if (st.1.entries ((oldest + i) % 65536 % PacketBufferSize)).receivedFragments ≠
        (st.1.entries ((oldest + i) % 65536 % PacketBufferSize)).numFragments then st
    else
      ({ st.1 with
          numFragments := st.1.numFragments -
            ((st.1.entries ((oldest + i) % 65536 % PacketBufferSize)).numFragments : Int)
          entries := upd st.1.entries ((oldest + i) % 65536 % PacketBufferSize) emptyEntry
          valid := upd st.1.valid ((oldest + i) % 65536 % PacketBufferSize) false },
        st.2 ++ [assemblePacket (st.1.entries ((oldest + i) % 65536 % PacketBufferSize)) i])
  else st

/-- `PacketBuffer::ReceivePackets(numPackets, packetData[])` (source lines
345-411): returns the drained `(size, bytes)` packets in scan order together
with the post-state. -/
def receivePackets (s : PacketBuffer) : List (Nat × List Nat) × PacketBuffer :=
  (((List.range PacketBufferSize).foldl
      (receiveStep ((s.currentSequence % 65536 + 65536 - (PacketBufferSize - 1)) % 65536))
      (s, [])).2,
   ((List.range PacketBufferSize).foldl
      (receiveStep ((s.currentSequence % 65536 + 65536 - (PacketBufferSize - 1)) % 65536))
      (s, [])).1)

/-- The splitter's fragment count (source line 422):
`(packetSize / MaxFragmentSize) + ((packetSize % MaxFragmentSize) != 0 ? 1 : 0)`. -/
def numFragmentsFor (packetSize : Nat) : Nat :=
  packetSize / MaxFragmentSize + (if packetSize % MaxFragmentSize ≠ 0 then 1 else 0)

/-- The per-fragment size of the splitter's loop (source line 431): the last
fragment gets the bytes left past `src = packetData + MaxFragmentSize * i`,
every other fragment gets `MaxFragmentSize`. -/
def splitFragmentSize (packetSize n i : Nat) : Nat :=
  if i = n - 1 then packetSize - MaxFragmentSize * i else MaxFragmentSize

/-- The splitter's loop over fragment indices (source lines 429-472), at the
level of fragment payloads: fragment `i` carries
`packetData[MaxFragmentSize*i ... MaxFragmentSize*i + size)`. -/
def splitChunks (packetData : List Nat) (packetSize n : Nat) : List (Nat × List Nat) :=
  (List.range n).map (fun i =>
    (splitFragmentSize packetSize n i,
     (packetData.drop (MaxFragmentSize * i)).take (splitFragmentSize packetSize n i)))

/-- `SplitPacketIntoFragments(sequence, packetData, packetSize, numFragments,
fragmentPackets[])` (source lines 414-477), at the level of fragment
payloads: produces the `(fragmentSize, fragment bytes)` list.  The wire
encoding (header + crc32) is dropped: claims are about the payload split.
The function's `assert`s on its inputs are modelled as precondition
failures. -/
def splitPacketIntoFragments (sequence : Nat) (packetData : List Nat) (packetSize : Nat) :
    Except String (List (Nat × List Nat)) :=
  if packetSize = 0 then .error "assert failed: packetSize > 0"
  else if ¬ packetSize < MaxPacketSize then .error "assert failed: packetSize < MaxPacketSize"
  else if numFragmentsFor packetSize = 0 ∨ numFragmentsFor packetSize > MaxFragmentsPerPacket then
    .error "assert failed: fragment count out of range"
  else
    .ok (splitChunks packetData packetSize (numFragmentsFor packetSize))

/-- The zeroed-when-unoccupied invariant: every slot whose occupancy flag is
false holds an entirely zeroed entry (as left by `memset`). -/
def EmptySlotsZeroed (s : PacketBuffer) : Prop :=
  ∀ i, s.valid i = false → s.entries i = emptyEntry

section Helpers

variable {α : Type}

lemma upd_eq (f : Nat → α) (i : Nat) (v : α) : upd f i v i = v := by
  simp [upd]

lemma upd_ne (f : Nat → α) (i : Nat) (v : α) {k : Nat} (h : k ≠ i) : upd f i v k = f k := by
  simp [upd, h]

lemma foldl_preserves {β : Type} (P : α → Prop) (f : α → β → α)
    (hf : ∀ a b, P a → P (f a b)) :
    ∀ (l : List β) (a : α), P a → P (l.foldl f a) := by
  intro l
  induction l with
  | nil => intro a h; exact h
  | cons b l ih => intro a h; exact ih (f a b) (hf a b h)

lemma advanceStep_frame (o : Nat) (s : PacketBuffer) (i : Nat) {k : Nat} (h : k ≠ i) :
    (advanceStep o s i).valid k = s.valid k ∧ (advanceStep o s i).entries k = s.entries k := by
  unfold advanceStep
  split
  · exact ⟨upd_ne _ _ _ h, upd_ne _ _ _ h⟩
  · exact ⟨rfl, rfl⟩

lemma advanceStep_invalid_keeps (o : Nat) (s : PacketBuffer) (i k : Nat)
    (h : s.valid k = false) :
    (advanceStep o s i).valid k = false ∧ (advanceStep o s i).entries k = s.entries k := by
  by_cases hk : k = i
  · subst hk
    unfold advanceStep
    simp [h]
  · obtain ⟨h1, h2⟩ := advanceStep_frame o s i hk
    exact ⟨h1.trans h, h2⟩

lemma advFold_invalid_keeps (o : Nat) (l : List Nat) (s : PacketBuffer) (k : Nat)
    (h : s.valid k = false) :
    (l.foldl (advanceStep o) s).valid k = false ∧
      (l.foldl (advanceStep o) s).entries k = s.entries k := by
  have := foldl_preserves
    (fun st => st.valid k = false ∧ st.entries k = s.entries k) (advanceStep o)
    (fun st i hst => by
      obtain ⟨h1, h2⟩ := advanceStep_invalid_keeps o st i k hst.1
      exact ⟨h1, h2.trans hst.2⟩)
    l s ⟨h, rfl⟩
  exact this

/-- Once a slot is cleared to `emptyEntry` with its flag down, the rest of the
eviction loop leaves it that way. -/
lemma advFold_cleared_keeps (o : Nat) (l : List Nat) (s : PacketBuffer) (k : Nat)
    (h : s.valid k = false) (he : s.entries k = emptyEntry) :
    (l.foldl (advanceStep o) s).valid k = false ∧
      (l.foldl (advanceStep o) s).entries k = emptyEntry := by
  obtain ⟨h1, h2⟩ := advFold_invalid_keeps o l s k h
  exact ⟨h1, h2.trans he⟩

/-- Every scan position the eviction loop visits while its slot is occupied
ends the loop cleared: flag down, entry zeroed. -/
lemma advFold_clears (o : Nat) :
    ∀ (l : List Nat) (s : PacketBuffer) (k : Nat), k ∈ l → s.valid k = true →
      (l.foldl (advanceStep o) s).valid k = false ∧
        (l.foldl (advanceStep o) s).entries k = emptyEntry := by
  intro l
  induction l with
  | nil => intro s k hk; exact absurd hk (List.not_mem_nil k)
  | cons a l ih =>
    intro s k hk hv
    by_cases hka : k = a
    · subst hka
      have hstep : (advanceStep o s k).valid k = false ∧
          (advanceStep o s k).entries k = emptyEntry := by
        unfold advanceStep
        rw [if_pos hv]
        exact ⟨upd_eq _ _ _, upd_eq _ _ _⟩
      simpa using advFold_cleared_keeps o l (advanceStep o s k) k hstep.1 hstep.2
    · have hk' : k ∈ l := by
        rcases List.mem_cons.mp hk with h | h
        · exact absurd h hka
        · exact h
      obtain ⟨h1, _⟩ := advanceStep_frame o s a hka
      exact (by simpa using ih (advanceStep o s a) k hk' (h1.trans hv))

lemma advance_invalid_frame (s : PacketBuffer) (q k : Nat) (h : s.valid k = false) :
    (advance s q).valid k = false ∧ (advance s q).entries k = s.entries k := by
  by_cases hg : sequence_greater_than q s.currentSequence = true
  · unfold advance
    rw [if_pos hg]
    exact advFold_invalid_keeps _ _ s k h
  · unfold advance
    rw [if_neg hg]
    exact ⟨h, rfl⟩

lemma sequence_difference_self (a : Nat) : sequence_difference a a = 0 := by
  unfold sequence_difference
  have h : a % 65536 + 65536 - a % 65536 = 65536 := by omega
  rw [h]
  decide

end Helpers

lemma numFragmentsFor_eq (S : Nat) :
    numFragmentsFor S = (S + MaxFragmentSize - 1) / MaxFragmentSize := by
  unfold numFragmentsFor MaxFragmentSize
  split <;> omega

lemma numFragmentsFor_ne_zero {S : Nat} (h : 0 < S) : numFragmentsFor S ≠ 0 := by
  unfold numFragmentsFor MaxFragmentSize
  split <;> omega

lemma numFragmentsFor_le {S : Nat} (h : S < MaxPacketSize) :
    ¬ numFragmentsFor S > MaxFragmentsPerPacket := by
  unfold MaxPacketSize MaxFragmentSize MaxFragmentsPerPacket at h
  unfold numFragmentsFor MaxFragmentSize MaxFragmentsPerPacket
  split <;> omega

/-- In the splitter's accepted size range, the guards all fall through and the
fragment list is produced. -/
lemma split_ok (sequence : Nat) (data : List Nat) {S : Nat}
    (h1 : 0 < S) (h2 : S < MaxPacketSize) :
    splitPacketIntoFragments sequence data S =
      .ok (splitChunks data S (numFragmentsFor S)) := by
  unfold splitPacketIntoFragments
  rw [if_neg (Nat.pos_iff_ne_zero.mp h1), if_neg (not_not_intro h2),
    if_neg (by push_neg; exact ⟨numFragmentsFor_ne_zero h1, by simpa using numFragmentsFor_le h2⟩)]

/-- The window state after the first fragment (id 0, 1024 bytes) of a
3-fragment packet for sequence 1 is accepted on a fresh buffer: slot 1 is
bound to sequence 1 with 3 declared fragments and holds fragment 0. -/
def c1State1 : PacketBuffer :=
  { currentSequence := 1, numFragments := 0
    valid := upd initPacketBuffer.valid 1 true
    entries := upd (upd initPacketBuffer.entries 1
        { initPacketBuffer.entries 1 with sequence := 1, numFragments := 3 }) 1
      { (upd initPacketBuffer.entries 1
          { initPacketBuffer.entries 1 with sequence := 1, numFragments := 3 }) 1 with
        fragmentSize := upd ((upd initPacketBuffer.entries 1
          { initPacketBuffer.entries 1 with sequence := 1, numFragments := 3 }) 1).fragmentSize
          0 1024
        fragmentData := upd ((upd initPacketBuffer.entries 1
          { initPacketBuffer.entries 1 with sequence := 1, numFragments := 3 }) 1).fragmentData
          0 (some (List.replicate 1024 1))
        receivedFragments := 1 } }

/-- C1: evaluation of the split → deliver → drain round trip at the spec's
own 2500-byte scenario.  The split produces the expected fragments of sizes
1024/1024/452 and all three are accepted, but the drain emits a packet whose
declared size is 2500 and whose bytes are NOT the payload: its first byte is
0 while the payload's is 1.  The reconstruction loop (source lines 390-394)
copies from `fragmentData[i]` / `fragmentSize[i]` with the outer scan index
`i` (here 255, a null fragment slot) instead of the fragment index `j`, so
nothing is copied into the returned buffer. -/
theorem c1_round_trip_bug :
    splitPacketIntoFragments 1 (List.replicate 2500 1) 2500 =
      .ok [(1024, List.replicate 1024 1), (1024, List.replicate 1024 1),
        (452, List.replicate 452 1)] ∧
    (processFragment initPacketBuffer (List.replicate 1024 1) 1024 1 0 3).1 = true ∧
    (processFragment (processFragment initPacketBuffer (List.replicate 1024 1) 1024 1 0 3).2
        (List.replicate 1024 1) 1024 1 1 3).1 = true ∧
    (processFragment
        (processFragment (processFragment initPacketBuffer (List.replicate 1024 1) 1024 1 0 3).2
          (List.replicate 1024 1) 1024 1 1 3).2
        (List.replicate 452 1) 452 1 2 3).1 = true ∧
    (receivePackets
        (processFragment
          (processFragment (processFragment initPacketBuffer (List.replicate 1024 1) 1024 1 0 3).2
            (List.replicate 1024 1) 1024 1 1 3).2
          (List.replicate 452 1) 452 1 2 3).2).1.map (fun p => (p.1, p.2.head?)) =
      [(2500, some 0)] ∧
    (List.replicate 2500 1).head? = some 1 := by
  have h1 : processFragment initPacketBuffer (List.replicate 1024 1) 1024 1 0 3 =
      (true, c1State1) := rfl
  refine ⟨rfl, ?_, ?_, ?_, ?_, rfl⟩
  · rw [h1]
  · rw [h1]
    decide
  · rw [h1]
    decide
  · rw [h1]
    decide

/-- C2: evaluation of `Advance` at a failing input.  A single-fragment packet
for sequence 1 is accepted and stored; sequence 2 then arrives.  The slot
bound to sequence 1 lies inside the new window `[65283, 2]`
(`sequence_less_than 1 65283 = false`), yet `Advance(2)` clears it: the
occupancy flag drops, the entry is zeroed (binding, received count and
fragment data destroyed), and the global fragment count is not decremented.
The claim (and the source's own comment, lines 127-130) says slots still
within the new window are left untouched. -/
theorem c2_advance_clears_in_window_slot :
    (processFragment initPacketBuffer (List.replicate 100 9) 100 1 0 1).1 = true ∧
    ((processFragment initPacketBuffer (List.replicate 100 9) 100 1 0 1).2.valid 1 = true ∧
      ((processFragment initPacketBuffer (List.replicate 100 9) 100 1 0 1).2.entries 1).receivedFragments = 1 ∧
      ((processFragment initPacketBuffer (List.replicate 100 9) 100 1 0 1).2.entries 1).sequence = 1 ∧
      ((processFragment initPacketBuffer (List.replicate 100 9) 100 1 0 1).2.entries 1).fragmentData 0 =
        some (List.replicate 100 9)) ∧
    sequence_greater_than 2 (processFragment initPacketBuffer (List.replicate 100 9) 100 1 0 1).2.currentSequence = true ∧
    sequence_less_than
      ((processFragment initPacketBuffer (List.replicate 100 9) 100 1 0 1).2.entries 1).sequence
      ((2 + 65536 - 255) % 65536) = false ∧
    ((advance (processFragment initPacketBuffer (List.replicate 100 9) 100 1 0 1).2 2).valid 1 = false ∧
      ((advance (processFragment initPacketBuffer (List.replicate 100 9) 100 1 0 1).2 2).entries 1).receivedFragments = 0 ∧
      ((advance (processFragment initPacketBuffer (List.replicate 100 9) 100 1 0 1).2 2).entries 1).sequence = 0 ∧
      ((advance (processFragment initPacketBuffer (List.replicate 100 9) 100 1 0 1).2 2).entries 1).fragmentData 0 = none ∧
      (advance (processFragment initPacketBuffer (List.replicate 100 9) 100 1 0 1).2 2).numFragments =
        (processFragment initPacketBuffer (List.replicate 100 9) 100 1 0 1).2.numFragments) := by
  decide

/-- C3: evaluation of `ProcessFragment` at failing inputs.  The parameter
`numFragments` shadows the member: on an empty buffer (global count 0) a
fragment of a 256-fragment packet is rejected by the first check, although
the claim says the first check only fails once the global count reaches
`MaxBufferedFragments`; and an accepted fragment leaves the member count at
0 (the final `numFragments++` hits the parameter), although the claim says
every accepted fragment increments the global count. -/
theorem c3_shadowed_buffered_count :
    initPacketBuffer.numFragments = 0 ∧
    (processFragment initPacketBuffer (List.replicate 1024 7) 1024 0 0 256).1 = false ∧
    (processFragment initPacketBuffer (List.replicate 100 9) 100 5 0 1).1 = true ∧
    (processFragment initPacketBuffer (List.replicate 100 9) 100 5 0 1).2.numFragments = 0 ∧
    ((processFragment initPacketBuffer (List.replicate 100 9) 100 5 0 1).2.entries 5).fragmentData 0 ≠ none := by
  decide

/-- C9: `greater_than(0, 65535)` is true under the signed 16-bit half-range
comparison, so with `currentSequence = 65535` a fragment sequence of 0 is
treated as newer: `Advance(0)` runs, sets `currentSequence` to 0, and every
occupied slot bound to a sequence older than the new window start 65281
(wraparound-aware) is evicted: flag cleared and entry zeroed. -/
theorem c9_wraparound_advance :
    sequence_greater_than 0 65535 = true ∧
    ∀ (s : PacketBuffer), s.currentSequence = 65535 →
      (advance s 0).currentSequence = 0 ∧
      ∀ i, i < PacketBufferSize → s.valid i = true →
        sequence_less_than (s.entries i).sequence 65281 = true →
        (advance s 0).valid i = false ∧ (advance s 0).entries i = emptyEntry := by
  refine ⟨by decide, ?_⟩
  intro s hs
  have hg : sequence_greater_than 0 s.currentSequence = true := by rw [hs]; decide
  constructor
  · unfold advance
    rw [if_pos hg]
  · intro i hi hv _
    unfold advance
    rw [if_pos hg]
    exact advFold_clears _ _ s i (List.mem_range.mpr hi) hv

def c9State : PacketBuffer :=
  { currentSequence := 65535, numFragments := 1
    valid := upd (fun _ => false) 100 true
    entries := upd (fun _ => emptyEntry) 100
      { sequence := 65000, numFragments := 1, receivedFragments := 1
        fragmentSize := upd (fun _ => 0) 0 10
        fragmentData := upd (fun _ => none) 0 (some (List.replicate 10 5)) } }

/-- Witness for C9 at a concrete state: a slot bound to sequence 65000 is
evicted when `Advance(0)` runs from `currentSequence = 65535`. -/
theorem c9_wraparound_advance_witness :
    (advance c9State 0).valid 100 = false ∧ (advance c9State 0).entries 100 = emptyEntry :=
  (c9_wraparound_advance.2 c9State rfl).2 100 (by decide) (by decide) (by decide)

/-- C7 counterexample: with `currentSequence = 0`, a fragment for sequence
5000 has wraparound-aware distance 5000, which exceeds the claimed bound
`10 × W = 2560`, yet `ProcessFragment` accepts it. -/
theorem c7_distance_bound_counterexample :
    sequence_difference 5000 0 = 5000 ∧ (2560 : Int) < 5000 ∧
    initPacketBuffer.currentSequence = 0 ∧
    (processFragment initPacketBuffer (List.replicate 100 3) 100 5000 0 1).1 = true := by
  decide

/-- C7 amended: the out-of-range cutoff in `ProcessFragment` is
`10 × 1024 = 10240` (ten times `MaxFragmentSize`, not ten times the window
size): a fragment is accepted only when the wraparound-aware signed
difference between its sequence and `currentSequence` is at most 10240, and
any fragment whose difference exceeds that bound is rejected with the window
state untouched. -/
theorem c7_distance_bound (s : PacketBuffer) (d : List Nat) (sz : Int) (q : Nat)
    (fid nf : Int) :
    ((processFragment s d sz q fid nf).1 = true →
      sequence_difference (q % 65536) s.currentSequence ≤ 10 * 1024) ∧
    (sequence_difference (q % 65536) s.currentSequence > 10 * 1024 →
      processFragment s d sz q fid nf = (false, s)) := by
  constructor
  · intro h
    unfold processFragment at h
    repeat' split at h
    all_goals first | omega | (exact absurd h (by simp))
  · intro hgt
    unfold processFragment
    repeat' split
    all_goals first | rfl | (exfalso; omega)

/-- Witness for C7 at a concrete input: a fragment for sequence 20000 on a
fresh buffer (difference 20000 > 10240) is rejected with no state change. -/
theorem c7_distance_bound_witness :
    processFragment initPacketBuffer (List.replicate 100 3) 100 20000 0 1 =
      (false, initPacketBuffer) :=
  (c7_distance_bound initPacketBuffer (List.replicate 100 3) 100 20000 0 1).2 (by decide)

/-- C5 counterexample: the claim's range includes S = MaxPacketSize, but
there the splitter's `assert(packetSize < MaxPacketSize)` precondition fails
and no fragments are produced. -/
theorem c5_split_sizes_counterexample :
    splitPacketIntoFragments 0 (List.replicate MaxPacketSize 1) MaxPacketSize =
      .error "assert failed: packetSize < MaxPacketSize" := by
  rfl

/-- C5 amended: for every payload size S with 0 < S < MaxPacketSize (strict,
per the splitter's precondition), SplitPacketIntoFragments produces
`ceil(S / MaxFragmentSize)` fragments, where every fragment except the last
carries exactly MaxFragmentSize payload bytes and the last carries the
remainder `S - MaxFragmentSize * (n-1)`; each fragment's byte list has
exactly its declared length. -/
theorem c5_split_sizes (sequence : Nat) (data : List Nat) (S : Nat)
    (h1 : 0 < S) (h2 : S < MaxPacketSize) :
    ∃ frags, splitPacketIntoFragments sequence data S = .ok frags ∧
      frags.length = (S + MaxFragmentSize - 1) / MaxFragmentSize ∧
      (∀ i, (hi : i < frags.length) →
        (frags[i]).1 =
          if i = frags.length - 1 then S - MaxFragmentSize * i else MaxFragmentSize) ∧
      (data.length = S → ∀ i, (hi : i < frags.length) →
        ((frags[i]).2).length = (frags[i]).1) := by
  refine ⟨splitChunks data S (numFragmentsFor S), split_ok sequence data h1 h2, ?_, ?_, ?_⟩
  · simp [splitChunks, numFragmentsFor_eq]
  · intro i hi
    have hlen : (splitChunks data S (numFragmentsFor S)).length = numFragmentsFor S := by
      simp [splitChunks]
    have hi' : i < numFragmentsFor S := by rw [hlen] at hi; exact hi
    rw [hlen]
    simp only [splitChunks, List.getElem_map, List.getElem_range]
    rfl
  · intro hd i hi
    have hlen : (splitChunks data S (numFragmentsFor S)).length = numFragmentsFor S := by
      simp [splitChunks]
    have hi' : i < numFragmentsFor S := by rw [hlen] at hi; exact hi
    simp only [splitChunks, List.getElem_map, List.getElem_range]
    rw [List.length_take, List.length_drop, hd]
    revert hi'
    unfold numFragmentsFor splitFragmentSize MaxFragmentSize
    split <;> split <;> (intro hi2; omega)

/-- Witness for C5 at the spec's concrete scenario: a 2500-byte payload. -/
theorem c5_split_sizes_witness :
    ∃ frags, splitPacketIntoFragments 1 (List.replicate 2500 1) 2500 = .ok frags ∧
      frags.length = (2500 + MaxFragmentSize - 1) / MaxFragmentSize ∧
      (∀ i, (hi : i < frags.length) →
        (frags[i]).1 =
          if i = frags.length - 1 then 2500 - MaxFragmentSize * i else MaxFragmentSize) ∧
      ((List.replicate 2500 1).length = 2500 → ∀ i, (hi : i < frags.length) →
        ((frags[i]).2).length = (frags[i]).1) :=
  c5_split_sizes 1 (List.replicate 2500 1) 2500 (by decide) (by decide)

/-- C6 counterexample: the claim says a payload of exactly MaxPacketSize
bytes is a valid input, but the splitter's `assert(packetSize < MaxPacketSize)`
precondition rejects it. -/
theorem c6_split_domain_counterexample :
    splitPacketIntoFragments 7 (List.replicate MaxPacketSize 0) MaxPacketSize =
      .error "assert failed: packetSize < MaxPacketSize" := by
  rfl

/-- C6 amended: SplitPacketIntoFragments accepts exactly the payload sizes
with 0 < size < MaxPacketSize; size 0 and any size ≥ MaxPacketSize (in
particular exactly MaxPacketSize) fail a precondition, reported to the
caller. -/
theorem c6_split_domain (sequence : Nat) (data : List Nat) (size : Nat) :
    (∃ r, splitPacketIntoFragments sequence data size = .ok r) ↔
      (0 < size ∧ size < MaxPacketSize) := by
  constructor
  · rintro ⟨r, hr⟩
    unfold splitPacketIntoFragments at hr
    by_cases h0 : size = 0
    · rw [if_pos h0] at hr
      exact absurd hr (by simp)
    rw [if_neg h0] at hr
    by_cases hm : size < MaxPacketSize
    · exact ⟨Nat.pos_of_ne_zero h0, hm⟩
    · rw [if_pos hm] at hr
      exact absurd hr (by simp)
  · rintro ⟨h1, h2⟩
    exact ⟨_, split_ok sequence data h1 h2⟩

lemma pfBind_entry (sa : PacketBuffer) (qn : Nat) (nf : Int) :
    (pfBind sa qn nf).entries (qn % PacketBufferSize) =
      { sa.entries (qn % PacketBufferSize) with
        sequence := qn % 65536, numFragments := nf.toNat % 256 } := by
  unfold pfBind
  exact upd_eq _ _ _

lemma pfBind_valid (sa : PacketBuffer) (qn : Nat) (nf : Int) :
    (pfBind sa qn nf).valid (qn % PacketBufferSize) = true := by
  unfold pfBind
  exact upd_eq _ _ _

lemma pfBind_currentSequence (sa : PacketBuffer) (qn : Nat) (nf : Int) :
    (pfBind sa qn nf).currentSequence = sa.currentSequence := rfl

lemma pfWrite_currentSequence (s1 : PacketBuffer) (d : List Nat) (sz : Int)
    (index : Nat) (fid : Int) :
    (pfWrite s1 d sz index fid).currentSequence = s1.currentSequence := rfl

lemma pfWrite_valid (s1 : PacketBuffer) (d : List Nat) (sz : Int)
    (index : Nat) (fid : Int) (k : Nat) :
    (pfWrite s1 d sz index fid).valid k = s1.valid k := rfl

lemma pfWrite_entry_sequence (s1 : PacketBuffer) (d : List Nat) (sz : Int)
    (index : Nat) (fid : Int) :
    ((pfWrite s1 d sz index fid).entries index).sequence =
      (s1.entries index).sequence := by
  unfold pfWrite
  dsimp only
  rw [upd_eq]

lemma pfWrite_entry_numFragments (s1 : PacketBuffer) (d : List Nat) (sz : Int)
    (index : Nat) (fid : Int) :
    ((pfWrite s1 d sz index fid).entries index).numFragments =
      (s1.entries index).numFragments := by
  unfold pfWrite
  dsimp only
  rw [upd_eq]

lemma pfWrite_entry_fragmentSize_at (s1 : PacketBuffer) (d : List Nat) (sz : Int)
    (index : Nat) (fid : Int) :
    ((pfWrite s1 d sz index fid).entries index).fragmentSize fid.toNat = sz.toNat := by
  unfold pfWrite
  dsimp only
  rw [upd_eq]
  dsimp only
  rw [upd_eq]

/-- A fragment identical to one already stored at its slot is rejected by
check 10 with the state unchanged: the reusable core of the duplicate
scenario, stated for any state of the shape left by an accepting call. -/
lemma processFragment_duplicate_reject (X : PacketBuffer) (d : List Nat) (sz : Int)
    (q : Nat) (fid nf : Int)
    (g1 : ¬ nf ≥ (MaxBufferedFragments : Int)) (g2 : ¬ sz ≤ 0)
    (g3 : ¬ sz > (MaxFragmentSize : Int))
    (g4 : ¬ (nf ≤ 0 ∨ nf > (MaxFragmentsPerPacket : Int)))
    (g5 : ¬ (fid < 0 ∨ fid ≥ nf))
    (g6 : ¬ (fid ≠ nf - 1 ∧ sz ≠ (MaxFragmentSize : Int)))
    (g7 : ¬ sequence_difference (q % 65536) X.currentSequence > 10 * 1024)
    (gv : X.valid (q % 65536 % PacketBufferSize) = true)
    (gs : (X.entries (q % 65536 % PacketBufferSize)).sequence = q % 65536)
    (g9 : nf = ((X.entries (q % 65536 % PacketBufferSize)).numFragments : Int)) :
    processFragment (pfWrite X d sz (q % 65536 % PacketBufferSize) fid) d sz q fid nf =
      (false, pfWrite X d sz (q % 65536 % PacketBufferSize) fid) := by
  unfold processFragment
  rw [if_neg g1, if_neg g2, if_neg g3, if_neg g4, if_neg g5, if_neg g6,
    pfWrite_currentSequence, if_neg g7]
  rw [if_neg (show ¬ ((pfWrite X d sz (q % 65536 % PacketBufferSize) fid).valid
        (q % 65536 % PacketBufferSize) = true ∧
      ((pfWrite X d sz (q % 65536 % PacketBufferSize) fid).entries
        (q % 65536 % PacketBufferSize)).sequence ≠ q % 65536) from
    fun h => h.2 (by rw [pfWrite_entry_sequence]; exact gs))]
  rw [if_pos (show (pfWrite X d sz (q % 65536 % PacketBufferSize) fid).valid
      (q % 65536 % PacketBufferSize) = true from by rw [pfWrite_valid]; exact gv)]
  unfold pfStore
  rw [if_neg (show ¬ nf ≠
      (((pfWrite X d sz (q % 65536 % PacketBufferSize) fid).entries
        (q % 65536 % PacketBufferSize)).numFragments : Int) from
    fun h => h (by rw [pfWrite_entry_numFragments]; exact g9))]
  rw [if_pos (show ((pfWrite X d sz (q % 65536 % PacketBufferSize) fid).entries
      (q % 65536 % PacketBufferSize)).fragmentSize fid.toNat ≠ 0 from by
    rw [pfWrite_entry_fragmentSize_at]; omega)]

/-- C8: delivering the identical fragment twice: if the first delivery is
accepted, the second is rejected (by the duplicate check) and leaves the
state after the first delivery — slot contents, received count and global
count — completely unchanged. -/
theorem c8_duplicate_second_rejected (s : PacketBuffer) (d : List Nat) (sz : Int)
    (q : Nat) (fid nf : Int)
    (hacc : (processFragment s d sz q fid nf).1 = true) :
    processFragment (processFragment s d sz q fid nf).2 d sz q fid nf =
      (false, (processFragment s d sz q fid nf).2) := by
  rcases hE : processFragment s d sz q fid nf with ⟨r, s1⟩
  rw [hE] at hacc
  replace hacc : r = true := hacc
  subst hacc
  unfold processFragment at hE
  by_cases h1 : nf ≥ (MaxBufferedFragments : Int)
  · rw [if_pos h1] at hE; exact absurd hE (by simp)
  rw [if_neg h1] at hE
  by_cases h2 : sz ≤ 0
  · rw [if_pos h2] at hE; exact absurd hE (by simp)
  rw [if_neg h2] at hE
  by_cases h3 : sz > (MaxFragmentSize : Int)
  · rw [if_pos h3] at hE; exact absurd hE (by simp)
  rw [if_neg h3] at hE
  by_cases h4 : nf ≤ 0 ∨ nf > (MaxFragmentsPerPacket : Int)
  · rw [if_pos h4] at hE; exact absurd hE (by simp)
  rw [if_neg h4] at hE
  by_cases h5 : fid < 0 ∨ fid ≥ nf
  · rw [if_pos h5] at hE; exact absurd hE (by simp)
  rw [if_neg h5] at hE
  by_cases h6 : fid ≠ nf - 1 ∧ sz ≠ (MaxFragmentSize : Int)
  · rw [if_pos h6] at hE; exact absurd hE (by simp)
  rw [if_neg h6] at hE
  by_cases h7 : sequence_difference (q % 65536) s.currentSequence > 10 * 1024
  · rw [if_pos h7] at hE; exact absurd hE (by simp)
  rw [if_neg h7] at hE
  by_cases h8 : s.valid (q % 65536 % PacketBufferSize) = true ∧
      (s.entries (q % 65536 % PacketBufferSize)).sequence ≠ q % 65536
  · rw [if_pos h8] at hE; exact absurd hE (by simp)
  rw [if_neg h8] at hE
  by_cases hv : s.valid (q % 65536 % PacketBufferSize) = true
  · rw [if_pos hv] at hE
    unfold pfStore at hE
    by_cases h9 : nf ≠ (((s.entries (q % 65536 % PacketBufferSize)).numFragments : Nat) : Int)
    · rw [if_pos h9] at hE; exact absurd hE (by simp)
    rw [if_neg h9] at hE
    by_cases h10 : (s.entries (q % 65536 % PacketBufferSize)).fragmentSize fid.toNat ≠ 0
    · rw [if_pos h10] at hE; exact absurd hE (by simp)
    rw [if_neg h10] at hE
    cases hE
    exact processFragment_duplicate_reject s d sz q fid nf h1 h2 h3 h4 h5 h6 h7 hv
      (by by_contra hne; exact h8 ⟨hv, hne⟩) (not_not.mp h9)
  · rw [if_neg hv] at hE
    unfold pfStore at hE
    by_cases h9 : nf ≠ ((((pfBind (advance s (q % 65536)) (q % 65536) nf).entries
        (q % 65536 % PacketBufferSize)).numFragments : Nat) : Int)
    · rw [if_pos h9] at hE; exact absurd hE (by simp)
    rw [if_neg h9] at hE
    by_cases h10 : ((pfBind (advance s (q % 65536)) (q % 65536) nf).entries
        (q % 65536 % PacketBufferSize)).fragmentSize fid.toNat ≠ 0
    · rw [if_pos h10] at hE; exact absurd hE (by simp)
    rw [if_neg h10] at hE
    cases hE
    apply processFragment_duplicate_reject (pfBind (advance s (q % 65536)) (q % 65536) nf)
      d sz q fid nf h1 h2 h3 h4 h5 h6 ?g7 (pfBind_valid _ _ _)
      (by rw [pfBind_entry]; dsimp only; omega) (not_not.mp h9)
    case g7 =>
      rw [pfBind_currentSequence]
      by_cases hg : sequence_greater_than (q % 65536) s.currentSequence = true
      · rw [show (advance s (q % 65536)).currentSequence = q % 65536 % 65536 from by
          unfold advance; rw [if_pos hg]]
        rw [show q % 65536 % 65536 = q % 65536 from by omega, sequence_difference_self]
        norm_num
      · rw [show (advance s (q % 65536)).currentSequence = s.currentSequence from by
          unfold advance; rw [if_neg hg]]
        exact h7

/-- Witness for C8 at a concrete input: the same single-fragment packet for
sequence 5 delivered twice to a fresh buffer. -/
theorem c8_duplicate_second_rejected_witness :
    processFragment (processFragment initPacketBuffer (List.replicate 100 9) 100 5 0 1).2
        (List.replicate 100 9) 100 5 0 1 =
      (false, (processFragment initPacketBuffer (List.replicate 100 9) 100 5 0 1).2) :=
  c8_duplicate_second_rejected initPacketBuffer (List.replicate 100 9) 100 5 0 1 (by decide)

/-- C4: whenever `ProcessFragment` rejects a fragment (any of the ten ordered
checks fails), the returned window state is exactly the input state: on every
reachable state (one where unoccupied slots are zeroed, as `memset` leaves
them) the two late checks (9 and 10) can only fire on a pre-existing slot, in
which case nothing has been mutated, and every earlier check rejects before
any mutation. -/
theorem c4_reject_no_side_effects (s : PacketBuffer) (d : List Nat) (sz : Int)
    (q : Nat) (fid nf : Int) (hinv : EmptySlotsZeroed s)
    (hrej : (processFragment s d sz q fid nf).1 = false) :
    (processFragment s d sz q fid nf).2 = s := by
  revert hrej
  unfold processFragment
  by_cases h1 : nf ≥ (MaxBufferedFragments : Int)
  · rw [if_pos h1]; intro _; rfl
  rw [if_neg h1]
  by_cases h2 : sz ≤ 0
  · rw [if_pos h2]; intro _; rfl
  rw [if_neg h2]
  by_cases h3 : sz > (MaxFragmentSize : Int)
  · rw [if_pos h3]; intro _; rfl
  rw [if_neg h3]
  by_cases h4 : nf ≤ 0 ∨ nf > (MaxFragmentsPerPacket : Int)
  · rw [if_pos h4]; intro _; rfl
  rw [if_neg h4]
  by_cases h5 : fid < 0 ∨ fid ≥ nf
  · rw [if_pos h5]; intro _; rfl
  rw [if_neg h5]
  by_cases h6 : fid ≠ nf - 1 ∧ sz ≠ (MaxFragmentSize : Int)
  · rw [if_pos h6]; intro _; rfl
  rw [if_neg h6]
  by_cases h7 : sequence_difference (q % 65536) s.currentSequence > 10 * 1024
  · rw [if_pos h7]; intro _; rfl
  rw [if_neg h7]
  by_cases h8 : s.valid (q % 65536 % PacketBufferSize) = true ∧
      (s.entries (q % 65536 % PacketBufferSize)).sequence ≠ q % 65536
  · rw [if_pos h8]; intro _; rfl
  rw [if_neg h8]
  by_cases hv : s.valid (q % 65536 % PacketBufferSize) = true
  · rw [if_pos hv]
    unfold pfStore
    by_cases h9 : nf ≠ (((s.entries (q % 65536 % PacketBufferSize)).numFragments : Nat) : Int)
    · rw [if_pos h9]; intro _; rfl
    rw [if_neg h9]
    by_cases h10 : (s.entries (q % 65536 % PacketBufferSize)).fragmentSize fid.toNat ≠ 0
    · rw [if_pos h10]; intro _; rfl
    rw [if_neg h10]
    intro hr
    exact absurd hr (by simp)
  · rw [if_neg hv]
    have hv' : s.valid (q % 65536 % PacketBufferSize) = false := by
      simpa using hv
    unfold pfStore
    have g9 : ¬ (nf ≠
        (((pfBind (advance s (q % 65536)) (q % 65536) nf).entries
            (q % 65536 % PacketBufferSize)).numFragments : Int)) := by
      rw [pfBind_entry]
      dsimp only
      unfold MaxBufferedFragments at h1
      unfold MaxFragmentsPerPacket at h4
      omega
    have g10 : ¬ ((pfBind (advance s (q % 65536)) (q % 65536) nf).entries
        (q % 65536 % PacketBufferSize)).fragmentSize fid.toNat ≠ 0 := by
      rw [pfBind_entry]
      dsimp only
      rw [(advance_invalid_frame s (q % 65536) _ hv').2, hinv _ hv']
      simp [emptyEntry]
    rw [if_neg g9, if_neg g10]
    intro hr
    exact absurd hr (by simp)

/-- Witness for C4 at a concrete input: a zero-size fragment on a fresh
buffer is rejected and the state is unchanged. -/
theorem c4_reject_no_side_effects_witness :
    (processFragment initPacketBuffer [] 0 0 0 1).2 = initPacketBuffer :=
  c4_reject_no_side_effects initPacketBuffer [] 0 0 0 1 (fun i _ => rfl) (by decide)

lemma advanceStep_preserves_inv (o : Nat) (s : PacketBuffer) (i : Nat)
    (h : EmptySlotsZeroed s) : EmptySlotsZeroed (advanceStep o s i) := by
  intro k hk
  unfold advanceStep at hk ⊢
  by_cases hv : s.valid i = true
  · rw [if_pos hv] at hk ⊢
    dsimp only at hk ⊢
    by_cases hki : k = i
    · subst hki
      exact upd_eq _ _ _
    · rw [upd_ne _ _ _ hki] at hk
      rw [upd_ne _ _ _ hki]
      exact h k hk
  · rw [if_neg hv] at hk ⊢
    exact h k hk

lemma advance_preserves_inv (s : PacketBuffer) (q : Nat) (h : EmptySlotsZeroed s) :
    EmptySlotsZeroed (advance s q) := by
  unfold advance
  split
  · intro k hk
    exact foldl_preserves EmptySlotsZeroed _
      (fun a b ha => advanceStep_preserves_inv _ a b ha) _ s h k hk
  · exact h

lemma pfBind_preserves_inv (sa : PacketBuffer) (qn : Nat) (nf : Int)
    (h : EmptySlotsZeroed sa) : EmptySlotsZeroed (pfBind sa qn nf) := by
  intro k hk
  unfold pfBind at hk ⊢
  dsimp only at hk ⊢
  by_cases hki : k = qn % PacketBufferSize
  · subst hki
    rw [upd_eq] at hk
    exact absurd hk (by simp)
  · rw [upd_ne _ _ _ hki] at hk
    rw [upd_ne _ _ _ hki]
    exact h k hk

lemma pfWrite_preserves_inv (s1 : PacketBuffer) (d : List Nat) (sz : Int)
    (index : Nat) (fid : Int) (h : EmptySlotsZeroed s1)
    (hvalid : s1.valid index = true) :
    EmptySlotsZeroed (pfWrite s1 d sz index fid) := by
  intro k hk
  unfold pfWrite at hk ⊢
  dsimp only at hk ⊢
  by_cases hki : k = index
  · subst hki
    rw [hvalid] at hk
    exact absurd hk (by simp)
  · rw [upd_ne _ _ _ hki]
    exact h k hk

lemma pfStore_preserves_inv (s1 : PacketBuffer) (d : List Nat) (sz : Int)
    (index : Nat) (fid nf : Int) (h : EmptySlotsZeroed s1)
    (hvalid : s1.valid index = true) :
    EmptySlotsZeroed (pfStore s1 d sz index fid nf).2 := by
  unfold pfStore
  split
  · exact h
  split
  · exact h
  · exact pfWrite_preserves_inv s1 d sz index fid h hvalid

lemma processFragment_preserves_inv (s : PacketBuffer) (d : List Nat) (sz : Int)
    (q : Nat) (fid nf : Int) (h : EmptySlotsZeroed s) :
    EmptySlotsZeroed (processFragment s d sz q fid nf).2 := by
  unfold processFragment
  repeat' split
  any_goals exact h
  · exact pfStore_preserves_inv _ _ _ _ _ _ h (by assumption)
  · exact pfStore_preserves_inv _ _ _ _ _ _
      (pfBind_preserves_inv _ _ _ (advance_preserves_inv _ _ h))
      (pfBind_valid _ _ _)

lemma receiveStep_preserves_inv (o : Nat) (st : PacketBuffer × List (Nat × List Nat))
    (i : Nat) (h : EmptySlotsZeroed st.1) : EmptySlotsZeroed (receiveStep o st i).1 := by
  unfold receiveStep
  repeat' split
  any_goals exact h
  intro k hk
  dsimp only at hk ⊢
  by_cases hki : k = (o + i) % 65536 % PacketBufferSize
  · subst hki
    exact upd_eq _ _ _
  · rw [upd_ne _ _ _ hki] at hk
    rw [upd_ne _ _ _ hki]
    exact h k hk

lemma receivePackets_preserves_inv (s : PacketBuffer) (h : EmptySlotsZeroed s) :
    EmptySlotsZeroed (receivePackets s).2 := by
  unfold receivePackets
  exact foldl_preserves (fun st => EmptySlotsZeroed st.1) _
    (fun a b ha => receiveStep_preserves_inv _ a b ha) _ (s, []) h

/-- C10: the zeroed-when-unoccupied invariant.  It holds after construction,
is preserved by `Advance`, `ProcessFragment` and `ReceivePackets` (every slot
clear re-establishes it via `memset`), and is exactly what `ProcessFragment`
relies on when binding a fresh slot: after `Advance`, an unoccupied slot's
`receivedFragments` is 0, the content of the source's assertion at line 257. -/
theorem c10_empty_slots_zeroed :
    EmptySlotsZeroed initPacketBuffer ∧
    (∀ s q, EmptySlotsZeroed s → EmptySlotsZeroed (advance s q)) ∧
    (∀ s d sz q fid nf, EmptySlotsZeroed s →
      EmptySlotsZeroed (processFragment s d sz q fid nf).2) ∧
    (∀ s, EmptySlotsZeroed s → EmptySlotsZeroed (receivePackets s).2) ∧
    (∀ s q i, EmptySlotsZeroed s → s.valid i = false →
      ((advance s q).entries i).receivedFragments = 0) :=
  ⟨fun _ _ => rfl,
   fun s q h => advance_preserves_inv s q h,
   fun s d sz q fid nf h => processFragment_preserves_inv s d sz q fid nf h,
   fun s h => receivePackets_preserves_inv s h,
   fun s q i h hv => by rw [(advance_invalid_frame s q i hv).2, h i hv]; rfl⟩

/-- Witness for C10: the invariant after a concrete accepted fragment on the
fresh buffer, and the fresh-bind assertion at a concrete unoccupied slot. -/
theorem c10_empty_slots_zeroed_witness :
    EmptySlotsZeroed (processFragment initPacketBuffer (List.replicate 8 1) 8 3 0 1).2 ∧
    ((advance initPacketBuffer 9).entries 7).receivedFragments = 0 :=
  ⟨c10_empty_slots_zeroed.2.2.1 initPacketBuffer (List.replicate 8 1) 8 3 0 1 (fun _ _ => rfl),
   c10_empty_slots_zeroed.2.2.2.2 initPacketBuffer 9 7 (fun _ _ => rfl) rfl⟩

/-- Witness for C6: a 5-byte payload is accepted while a MaxPacketSize-byte
payload is not. -/
theorem c6_split_domain_witness :
    (∃ r, splitPacketIntoFragments 7 (List.replicate 5 1) 5 = .ok r) ∧
    ¬ ∃ r, splitPacketIntoFragments 7 (List.replicate MaxPacketSize 1) MaxPacketSize = .ok r :=
  ⟨(c6_split_domain 7 (List.replicate 5 1) 5).mpr ⟨by decide, by decide⟩,
   fun h =>
     absurd ((c6_split_domain 7 (List.replicate MaxPacketSize 1) MaxPacketSize).mp h).2
       (lt_irrefl _)⟩

end Protocol2
